import Mathlib

/-!
Shallow embedding of the Consistent Screenshot Tool (`src/cst.py`) and
verification of its specification.

The program is a PyQt5 application with two classes:

* `Overlay` — a full-screen, frameless, always-on-top widget that hides the
  system cursor, grabs mouse and keyboard, repaints a centered rectangle on a
  zero-delay timer (`paintEvent`), captures the centered screen region on a
  left click (`mousePressEvent`), and restores all grabbed state on close
  (`closeEvent`).
* `MainWindow` — the configuration window whose `toggle_overlay` opens or
  closes the overlay.

The embedding represents each Qt/OS side effect as an explicit `Effect`
value; the handlers become pure functions returning the successor state and
the ordered list of effects they perform.  Debug `print` statements in the
source write to stdout only; they are not modelled as effects.  Python's
floor division `//` is `Int.fdiv`.  The timestamp `int(time.time())` is a
natural number supplied by the environment, as is the success of
`img.save(path)` (which returns a bool that the source discards).
-/

namespace CST

/-- Mouse buttons as distinguished by `event.button()`; the source compares
against `Qt.LeftButton` only. -/
inductive MouseButton where
  | left
  | right
  | middle
  deriving DecidableEq

/-- Error taxonomy of the specification for capture and open operations.
The Python source has no error channel of its own; the model uses this type
to state what (if anything) a handler reports to its caller. -/
inductive CaptureError where
  | ioError
  | captureUnavailable
  deriving DecidableEq

/-- One observable Qt/OS side effect performed by a handler, in program
order.  Arguments record the data the source passes at the call site. -/
inductive Effect where
  | showFullScreen
  | setOverrideCursor
  | setCursor
  | grabMouse
  | grabKeyboard
  | registerShortcut (key : String)
  | timerStart (intervalMs : Nat)
  | fillWindow (r g b a : Nat)
  | setPen (width : Nat)
  | drawRect (x y w h : Int)
  | grabScreen (x y w h : Int)
  | writeFile (path : String) (imgW imgH : Int) (ok : Bool)
  | acceptEvent
  | timerStop
  | releaseMouse
  | releaseKeyboard
  | restoreOverrideCursor
  | onClosed
  | setStatus (s : String)
  | hideMainWindow
  deriving DecidableEq

/-- Is the effect the screen grab (`primaryScreen().grabWindow(0, x, y, w, h)`)? -/
def Effect.isGrabScreen : Effect → Bool
  | .grabScreen _ _ _ _ => true
  | _ => false

/-- Is the effect the image file write (`img.save(path)`)? -/
def Effect.isWriteFile : Effect → Bool
  | .writeFile _ _ _ _ => true
  | _ => false

/-- Is the effect the stroked rectangle (`painter.drawRect`)? -/
def Effect.isDrawRect : Effect → Bool
  | .drawRect _ _ _ _ => true
  | _ => false

/-- Is the effect the `on_closed` callback invocation? -/
def Effect.isOnClosed : Effect → Bool
  | .onClosed => true
  | _ => false

/-- Is the effect part of the close/teardown sequence of `closeEvent`? -/
def Effect.isCloseEffect : Effect → Bool
  | .timerStop => true
  | .releaseMouse => true
  | .releaseKeyboard => true
  | .restoreOverrideCursor => true
  | .onClosed => true
  | _ => false

/-- State of one `Overlay` instance: the constructor arguments `width`,
`height`, `save_folder` (fields `self.w`, `self.h`, `self.save_folder`) plus
the systemwide resources the instance holds (repaint timer, mouse grab,
keyboard grab, cursor override) and its visibility. -/
structure Overlay where
  w : Int
  h : Int
  save_folder : String
  timerActive : Bool
  mouseGrabbed : Bool
  keyboardGrabbed : Bool
  cursorOverridden : Bool
  visible : Bool
  deriving DecidableEq

/-- `Overlay.__init__`: shows full screen, hides the system cursor via an
override cursor, grabs mouse and keyboard, registers the two close
shortcuts, and starts the zero-delay repaint timer. -/
def Overlay.init (width height : Int) (save_folder : String) :
    Overlay × List Effect :=
  (⟨width, height, save_folder, true, true, true, true, true⟩,
   [.showFullScreen, .setOverrideCursor, .setCursor, .grabMouse, .grabKeyboard,
    .registerShortcut "Ctrl+G", .registerShortcut "Escape", .timerStart 0])

/-- `QWidget.mapFromGlobal` for a widget whose global top-left corner is
`(originX, originY)`: local coordinates are global minus the origin. -/
def mapFromGlobal (originX originY gx gy : Int) : Int × Int :=
  (gx - originX, gy - originY)

/-- `Overlay.paintEvent` at overlay-local cursor position `(lpx, lpy)`:
fills the window with `QColor(0, 0, 0, 1)`, sets a red pen of width 3, and
strokes a `QRect(x, y, w, h)` with
`x = lp.x() - self.w // 2 + 1`, `y = lp.y() - self.h // 2 + 1`. -/
def Overlay.paintEvent (o : Overlay) (lpx lpy : Int) : List Effect :=
  let x := lpx - o.w.fdiv 2 + 1
  let y := lpy - o.h.fdiv 2 + 1
  [.fillWindow 0 0 0 1, .setPen 3, .drawRect x y o.w o.h]

/-- One repaint tick: sample the global cursor `(gx, gy)` (`QCursor.pos()`),
map it into overlay-local coordinates (`self.mapFromGlobal(gp)`), and paint. -/
def Overlay.paintTick (o : Overlay) (originX originY gx gy : Int) : List Effect :=
  let lp := mapFromGlobal originX originY gx gy
  o.paintEvent lp.1 lp.2

/-- `os.path.join(folder, name)` for a relative `name` (POSIX rules: an
empty first component yields the second; otherwise a `/` separator is
inserted unless the first component already ends with one). -/
def osPathJoin (a b : String) : String :=
  if a = "" then b
  else if a.data.getLast? = some '/' then a ++ b
  else a ++ "/" ++ b

/-- `Overlay.mousePressEvent`: only on `Qt.LeftButton`, sample the global
cursor, compute `x = gp.x() - self.w // 2`, `y = gp.y() - self.h // 2`, grab
the screen rectangle `(x, y, self.w, self.h)`, and save it to
`os.path.join(self.save_folder, f"screenshot_<timestamp>.png")`;
the event is accepted so the overlay stays up.  `img.save(path)` returns a
bool (`saveOk` here, False when the write fails) that the source discards,
so no error value is ever reported; any other button does nothing. -/
def Overlay.mousePressEvent (o : Overlay) (button : MouseButton)
    (gpx gpy : Int) (timestamp : Nat) (saveOk : Bool) :
    Overlay × List Effect × Option CaptureError :=
  if button = .left then
    let x := gpx - o.w.fdiv 2
    let y := gpy - o.h.fdiv 2
    let filename := "screenshot_" ++ toString timestamp ++ ".png"
    let path := osPathJoin o.save_folder filename
    (o, [.grabScreen x y o.w o.h, .writeFile path o.w o.h saveOk, .acceptEvent],
     none)
  else
    (o, [], none)

/-- `Overlay.closeEvent`: stops the repaint timer, releases the mouse and
keyboard grabs, restores the override cursor, and invokes the `on_closed`
callback; `super().closeEvent(event)` then hides the widget. -/
def Overlay.closeEvent (o : Overlay) : Overlay × List Effect :=
  ({ o with timerActive := false, mouseGrabbed := false,
            keyboardGrabbed := false, cursorOverridden := false,
            visible := false },
   [.timerStop, .releaseMouse, .releaseKeyboard, .restoreOverrideCursor,
    .onClosed])

/-- The three ways an active overlay is closed: the `Ctrl+G` shortcut, the
`Escape` shortcut (both connected to `self.close`), and the programmatic
`self.overlay.close()` in `MainWindow.toggle_overlay`. -/
inductive CloseTrigger where
  | ctrlG
  | escape
  | toggleOff
  deriving DecidableEq

/-- Dispatch of a close trigger: each of the three triggers calls
`QWidget.close()`, which delivers a single `closeEvent`. -/
def Overlay.closeVia (o : Overlay) (t : CloseTrigger) : Overlay × List Effect :=
  match t with
  | .ctrlG => o.closeEvent
  | .escape => o.closeEvent
  | .toggleOff => o.closeEvent

/-- State of `MainWindow` relevant to `toggle_overlay`: the configured
folder and region size and the overlay handle (`self.overlay`, `None`
before the first open). -/
structure MainWindow where
  save_folder : String
  width : Int
  height : Int
  overlay : Option Overlay

/-- The guard `self.overlay and self.overlay.isVisible()`. -/
def MainWindow.overlayActive (m : MainWindow) : Bool :=
  match m.overlay with
  | some ov => ov.visible
  | none => false

/-- Outcome of one `toggle_overlay` call. -/
inductive ToggleOutcome where
  | closedOverlay
  | refusedNoFolder
  | openedOverlay
  deriving DecidableEq

/-- The open branch of `toggle_overlay`: if `self.save_folder` is empty
(falsy), set the status text and return without creating anything;
otherwise hide the main window and construct the `Overlay`. -/
def MainWindow.toggleOpen (m : MainWindow) :
    ToggleOutcome × MainWindow × List Effect :=
  if m.save_folder = "" then
    (.refusedNoFolder, m, [.setStatus "Please select a folder first!"])
  else
    let o := Overlay.init m.width m.height m.save_folder
    (.openedOverlay, { m with overlay := some o.1 }, .hideMainWindow :: o.2)

/-- `MainWindow.toggle_overlay`: with a visible overlay, close it;
otherwise try to open one (see `MainWindow.toggleOpen`). -/
def MainWindow.toggle_overlay (m : MainWindow) :
    ToggleOutcome × MainWindow × List Effect :=
  match m.overlay with
  | some ov =>
    if ov.visible then
      let c := ov.closeEvent
      (.closedOverlay, { m with overlay := some c.1 }, c.2)
    else m.toggleOpen
  | none => m.toggleOpen

/-- The `(path, imageWidth, imageHeight)` triples of the file writes a
mouse-press performs, in order. -/
def writtenFiles (o : Overlay) (button : MouseButton) (gpx gpy : Int)
    (timestamp : Nat) (saveOk : Bool) : List (String × Int × Int) :=
  (o.mousePressEvent button gpx gpy timestamp saveOk).2.1.filterMap fun e =>
    match e with
    | .writeFile p w h _ => some (p, w, h)
    | _ => none

/-- Global position of the top-left corner of the rectangle drawn by a
repaint tick (the `drawRect` effect mapped back from overlay-local to
global coordinates through the overlay origin). -/
def drawnTopLeftGlobal (o : Overlay) (originX originY gx gy : Int) :
    Int × Int :=
  match (o.paintTick originX originY gx gy).filter Effect.isDrawRect with
  | [Effect.drawRect x y _ _] => (x + originX, y + originY)
  | _ => (0, 0)

/-- Global origin of the rectangle a left click captures (the `grabScreen`
effect of `mousePressEvent`). -/
def captureOrigin (o : Overlay) (gx gy : Int) (timestamp : Nat)
    (saveOk : Bool) : Int × Int :=
  match (o.mousePressEvent .left gx gy timestamp saveOk).2.1.filter
      Effect.isGrabScreen with
  | [Effect.grabScreen x y _ _] => (x, y)
  | _ => (0, 0)

/-- Numeric value of a decimal digit character (used to invert
`Nat.digitChar` on digits below 10). -/
def decodeDigit (c : Char) : Nat := c.toNat - 48

/-- Decimal value of a digit string, most significant digit first; a left
inverse of `Nat.toDigits 10`. -/
def decodeDigits (l : List Char) : Nat :=
  l.foldl (fun a c => a * 10 + decodeDigit c) 0

/-- C1: on a primary-button click with configured region size `(w, h)`,
`w, h > 0`, the one capture rectangle passed to the screen grab has global
origin `(cx - w/2, cy - h/2)` under integer floor division and size
`(w, h)`. -/
theorem capture_rect_centered (o : Overlay) (cx cy : Int) (t : Nat)
    (ok : Bool) (hw : 0 < o.w) (hh : 0 < o.h) :
    (o.mousePressEvent .left cx cy t ok).2.1.filter Effect.isGrabScreen
      = [Effect.grabScreen (cx - o.w.fdiv 2) (cy - o.h.fdiv 2) o.w o.h] := by
  rfl

/-- C1 witness: region 800×600, cursor at global (1000, 500), capture
origin (600, 200) and size 800×600. -/
theorem capture_rect_centered_witness :
    (0 : Int) < 800 ∧ (0 : Int) < 600 ∧
    ((⟨800, 600, "shots", true, true, true, true, true⟩ :
        Overlay).mousePressEvent .left 1000 500 7 true).2.1.filter
        Effect.isGrabScreen
      = [Effect.grabScreen 600 200 800 600] :=
  ⟨by norm_num, by norm_num, by
    have h := capture_rect_centered
      ⟨800, 600, "shots", true, true, true, true, true⟩ 1000 500 7 true
      (by norm_num) (by norm_num)
    rw [h]; decide⟩

/-- C2: each repaint tick with the cursor at overlay-local `(lx, ly)` and
region size `(w, h)`, `w, h > 0`, strokes exactly one rectangle, with local
top-left `(lx - w/2 + 1, ly - h/2 + 1)` under integer floor division, width
`w` and height `h`. -/
theorem drawn_rect_formula (o : Overlay) (lx ly : Int)
    (hw : 0 < o.w) (hh : 0 < o.h) :
    (o.paintEvent lx ly).filter Effect.isDrawRect
      = [Effect.drawRect (lx - o.w.fdiv 2 + 1) (ly - o.h.fdiv 2 + 1)
          o.w o.h] := by
  rfl

/-- C2 witness: region 800×600, local cursor (1000, 500), drawn top-left
(601, 201). -/
theorem drawn_rect_formula_witness :
    (0 : Int) < 800 ∧ (0 : Int) < 600 ∧
    ((⟨800, 600, "shots", true, true, true, true, true⟩ :
        Overlay).paintEvent 1000 500).filter Effect.isDrawRect
      = [Effect.drawRect 601 201 800 600] :=
  ⟨by norm_num, by norm_num, by
    have h := drawn_rect_formula
      ⟨800, 600, "shots", true, true, true, true, true⟩ 1000 500
      (by norm_num) (by norm_num)
    rw [h]; decide⟩

/-- C3: for every cursor position, overlay origin and region size, the
global top-left of the drawn rectangle is the global origin of the captured
rectangle shifted by exactly (+1, +1): the capture computation uses no +1
offset while the drawing computation adds +1 to each coordinate. -/
theorem drawn_offset_from_capture (o : Overlay) (originX originY gx gy : Int)
    (t : Nat) (ok : Bool) :
    drawnTopLeftGlobal o originX originY gx gy
      = ((captureOrigin o gx gy t ok).1 + 1,
         (captureOrigin o gx gy t ok).2 + 1) := by
  have h1 : drawnTopLeftGlobal o originX originY gx gy
      = (gx - originX - o.w.fdiv 2 + 1 + originX,
         gy - originY - o.h.fdiv 2 + 1 + originY) := rfl
  have h2 : captureOrigin o gx gy t ok
      = (gx - o.w.fdiv 2, gy - o.h.fdiv 2) := rfl
  rw [h1, h2]
  simp only [Prod.mk.injEq]
  constructor <;> ring

/-- C4: every close trigger (Ctrl+G, Escape, or the programmatic toggle-off)
runs the close sequence: the timer is stopped, both grabs are released, the
cursor override is removed (all four resource flags end false, with the
matching effects performed), and the `on_closed` callback runs exactly
once. -/
theorem close_restores_and_notifies_once (o : Overlay) (tr : CloseTrigger) :
    (o.closeVia tr).1.timerActive = false ∧
    (o.closeVia tr).1.mouseGrabbed = false ∧
    (o.closeVia tr).1.keyboardGrabbed = false ∧
    (o.closeVia tr).1.cursorOverridden = false ∧
    Effect.timerStop ∈ (o.closeVia tr).2 ∧
    Effect.releaseMouse ∈ (o.closeVia tr).2 ∧
    Effect.releaseKeyboard ∈ (o.closeVia tr).2 ∧
    Effect.restoreOverrideCursor ∈ (o.closeVia tr).2 ∧
    (o.closeVia tr).2.countP Effect.isOnClosed = 1 := by
  cases tr <;>
    simp [Overlay.closeVia, Overlay.closeEvent, Effect.isOnClosed,
      List.countP_cons]

/-- C10: a mouse press with any non-primary button performs no capture, no
file write and no other effect, reports no error, and leaves the overlay
state (visibility, grabs, timer, cursor override) unchanged. -/
theorem non_left_press_is_noop (o : Overlay) (b : MouseButton) (gx gy : Int)
    (t : Nat) (ok : Bool) (hb : b ≠ .left) :
    o.mousePressEvent b gx gy t ok = (o, [], none) := by
  cases b
  · exact absurd rfl hb
  · rfl
  · rfl

/-- C10 witness: a right-button press at (1000, 500) is a no-op. -/
theorem non_left_press_is_noop_witness :
    MouseButton.right ≠ MouseButton.left ∧
    (⟨800, 600, "shots", true, true, true, true, true⟩ :
        Overlay).mousePressEvent .right 1000 500 7 true
      = (⟨800, 600, "shots", true, true, true, true, true⟩, [], none) :=
  ⟨by decide,
   non_left_press_is_noop ⟨800, 600, "shots", true, true, true, true, true⟩
     .right 1000 500 7 true (by decide)⟩

/-- C5 counterexample: when the image write fails (`img.save` returns
`False`, e.g. the folder was deleted mid-session), the press handler reports
no error whatsoever — in particular not the `IOError` the claim states; the
save result is silently discarded. -/
theorem failed_write_reports_no_error :
    ((⟨800, 600, "shots", true, true, true, true, true⟩ :
        Overlay).mousePressEvent .left 1000 500 7 false).2.2 = none ∧
    ((⟨800, 600, "shots", true, true, true, true, true⟩ :
        Overlay).mousePressEvent .left 1000 500 7 false).2.2
      ≠ some CaptureError.ioError :=
  ⟨rfl, by decide⟩

/-- C5 amended: a capture whose file write fails is silently ignored: no
error is reported to any caller, the overlay state is unchanged (still
Active, grabs and timer intact) and no close-sequence effect occurs; the
failed write is the sole write attempt, and a subsequent capture with a
writable folder performs its single write successfully. -/
theorem failed_write_silently_ignored (o : Overlay) (cx cy cx2 cy2 : Int)
    (t t2 : Nat) :
    (o.mousePressEvent .left cx cy t false).2.2 = none ∧
    (o.mousePressEvent .left cx cy t false).1 = o ∧
    (o.mousePressEvent .left cx cy t false).2.1.countP Effect.isCloseEffect
      = 0 ∧
    (o.mousePressEvent .left cx cy t false).2.1.filter Effect.isWriteFile
      = [Effect.writeFile
          (osPathJoin o.save_folder ("screenshot_" ++ toString t ++ ".png"))
          o.w o.h false] ∧
    (o.mousePressEvent .left cx2 cy2 t2 true).2.1.filter Effect.isWriteFile
      = [Effect.writeFile
          (osPathJoin o.save_folder ("screenshot_" ++ toString t2 ++ ".png"))
          o.w o.h true] :=
  ⟨rfl, rfl, rfl, rfl, rfl⟩

/-- C6 counterexample: with a non-empty folder but width 0, the open request
is not refused: `toggle_overlay` builds and shows the overlay (grabbing
input) instead of reporting a configuration error. -/
theorem zero_size_open_not_refused :
    (MainWindow.toggle_overlay ⟨"shots", 0, 600, none⟩).1
      = ToggleOutcome.openedOverlay ∧
    (MainWindow.toggle_overlay ⟨"shots", 0, 600, none⟩).1
      ≠ ToggleOutcome.refusedNoFolder ∧
    (MainWindow.toggle_overlay ⟨"shots", 0, 600, none⟩).2.1.overlay
      = some ⟨0, 600, "shots", true, true, true, true, true⟩ :=
  ⟨rfl, by decide, rfl⟩

/-- C6 amended: `toggle_overlay` validates only the folder: whenever no
overlay is visible and the folder is non-empty it transitions to Active,
creating the overlay with the configured width and height — even when width
or height is 0.  Zero sizes are never refused. -/
theorem open_checks_only_folder (m : MainWindow)
    (hvis : m.overlayActive = false) (hf : m.save_folder ≠ "") :
    m.toggle_overlay.1 = ToggleOutcome.openedOverlay ∧
    m.toggle_overlay.2.1.overlay
      = some (Overlay.init m.width m.height m.save_folder).1 := by
  cases m with
  | mk f w h ov =>
    cases ov with
    | none =>
      simp only [MainWindow.toggle_overlay, MainWindow.toggleOpen] at *
      simp [hf]
    | some o =>
      have hv : o.visible = false := by
        simpa [MainWindow.overlayActive] using hvis
      simp only [MainWindow.toggle_overlay, MainWindow.toggleOpen] at *
      simp [hv, hf]

/-- C6 amended witness: folder "shots", width 0, height 600 opens the
overlay. -/
theorem open_checks_only_folder_witness :
    MainWindow.overlayActive ⟨"shots", 0, 600, none⟩ = false ∧
    ("shots" : String) ≠ "" ∧
    ((MainWindow.toggle_overlay ⟨"shots", 0, 600, none⟩).1
        = ToggleOutcome.openedOverlay ∧
     (MainWindow.toggle_overlay ⟨"shots", 0, 600, none⟩).2.1.overlay
        = some (Overlay.init 0 600 "shots").1) :=
  ⟨rfl, by decide,
   open_checks_only_folder ⟨"shots", 0, 600, none⟩ rfl (by decide)⟩

/-- C7: with no overlay visible and an empty folder, `toggle_overlay`
refuses to open: it reports the missing-configuration failure in the status
label and does nothing else — the `MainWindow` state (including the absence
of any overlay session) is unchanged, no window is shown and no grab is
taken. -/
theorem empty_folder_open_refused (m : MainWindow)
    (hvis : m.overlayActive = false) (hf : m.save_folder = "") :
    m.toggle_overlay.1 = ToggleOutcome.refusedNoFolder ∧
    m.toggle_overlay.2.1 = m ∧
    m.toggle_overlay.2.2
      = [Effect.setStatus "Please select a folder first!"] := by
  cases m with
  | mk f w h ov =>
    cases ov with
    | none =>
      simp only [MainWindow.toggle_overlay, MainWindow.toggleOpen] at *
      simp [hf]
    | some o =>
      have hv : o.visible = false := by
        simpa [MainWindow.overlayActive] using hvis
      simp only [MainWindow.toggle_overlay, MainWindow.toggleOpen] at *
      simp [hv, hf]

/-- C7 witness: folder unset, no overlay: the open request is refused and
nothing happens beyond the status message. -/
theorem empty_folder_open_refused_witness :
    MainWindow.overlayActive ⟨"", 800, 600, none⟩ = false ∧
    ("" : String) = "" ∧
    ((MainWindow.toggle_overlay ⟨"", 800, 600, none⟩).1
        = ToggleOutcome.refusedNoFolder ∧
     (MainWindow.toggle_overlay ⟨"", 800, 600, none⟩).2.1
        = ⟨"", 800, 600, none⟩ ∧
     (MainWindow.toggle_overlay ⟨"", 800, 600, none⟩).2.2
        = [Effect.setStatus "Please select a folder first!"]) :=
  ⟨rfl, rfl, empty_folder_open_refused ⟨"", 800, 600, none⟩ rfl rfl⟩

/-- C8: every successful left-click capture performs exactly one file
write, whose path joins the configured folder with
`screenshot_<unix-seconds>.png` for the click timestamp, whose image has
the configured dimensions; the overlay state is not mutated and no error is
produced. -/
theorem successful_capture_single_write (o : Overlay) (cx cy : Int)
    (t : Nat) :
    (o.mousePressEvent .left cx cy t true).2.1.filter Effect.isWriteFile
      = [Effect.writeFile
          (osPathJoin o.save_folder ("screenshot_" ++ toString t ++ ".png"))
          o.w o.h true] ∧
    (o.mousePressEvent .left cx cy t true).1 = o ∧
    (o.mousePressEvent .left cx cy t true).2.2 = none :=
  ⟨rfl, rfl, rfl⟩

/-- Accumulator lemma for `Nat.toDigitsCore`: the accumulated suffix is
simply appended to the digits produced from `n`. -/
theorem toDigitsCore_eq_append (b : Nat) (fuel : Nat) :
    ∀ (n : Nat) (ds : List Char),
      Nat.toDigitsCore b fuel n ds = Nat.toDigitsCore b fuel n [] ++ ds := by
  induction fuel with
  | zero => intro n ds; simp [Nat.toDigitsCore]
  | succ fuel ih =>
    intro n ds
    simp only [Nat.toDigitsCore]
    by_cases h : n / b = 0
    · simp [h]
    · rw [if_neg h, if_neg h,
        ih (n / b) (Nat.digitChar (n % b) :: ds),
        ih (n / b) [Nat.digitChar (n % b)], List.append_assoc]
      simp

/-- `decodeDigit` inverts `Nat.digitChar` on decimal digits. -/
theorem decodeDigit_digitChar : ∀ m : Nat, m < 10 →
    decodeDigit (Nat.digitChar m) = m := by decide

/-- With sufficient fuel, `decodeDigits` recovers the number encoded by
`Nat.toDigitsCore` in base 10. -/
theorem decodeDigits_toDigitsCore (fuel : Nat) :
    ∀ n : Nat, n < fuel →
      decodeDigits (Nat.toDigitsCore 10 fuel n []) = n := by
  induction fuel with
  | zero => intro n h; omega
  | succ fuel ih =>
    intro n h
    simp only [Nat.toDigitsCore]
    by_cases h0 : n / 10 = 0
    · rw [if_pos h0]
      have hm : n % 10 < 10 := Nat.mod_lt _ (by norm_num)
      have hd := decodeDigit_digitChar (n % 10) hm
      simp [decodeDigits, hd]
      omega
    · rw [if_neg h0,
        toDigitsCore_eq_append 10 fuel (n / 10) [Nat.digitChar (n % 10)]]
      have hpos : 0 < n := by
        rcases Nat.eq_zero_or_pos n with hz | hp
        · exact absurd (by simp [hz]) h0
        · exact hp
      have hfuel : n / 10 < fuel := by
        have := Nat.div_lt_self hpos (by norm_num : 1 < 10)
        omega
      have hm : n % 10 < 10 := Nat.mod_lt _ (by norm_num)
      have hsplit :
          decodeDigits (Nat.toDigitsCore 10 fuel (n / 10) []
              ++ [Nat.digitChar (n % 10)])
            = decodeDigits (Nat.toDigitsCore 10 fuel (n / 10) []) * 10
              + decodeDigit (Nat.digitChar (n % 10)) := by
        simp [decodeDigits, List.foldl_append]
      rw [hsplit, ih (n / 10) hfuel, decodeDigit_digitChar (n % 10) hm]
      omega

/-- The decimal string representation of a natural number determines the
number. -/
theorem natRepr_injective {m n : Nat} (h : Nat.repr m = Nat.repr n) :
    m = n := by
  have hd : Nat.toDigits 10 m = Nat.toDigits 10 n := congrArg String.data h
  have hm := decodeDigits_toDigitsCore (m + 1) m (Nat.lt_succ_self m)
  have hn := decodeDigits_toDigitsCore (n + 1) n (Nat.lt_succ_self n)
  calc m = decodeDigits (Nat.toDigits 10 m) := hm.symm
    _ = decodeDigits (Nat.toDigits 10 n) := by rw [hd]
    _ = n := hn

/-- `toString` on naturals (used for the timestamp in the file name) is
injective. -/
theorem natToString_injective {m n : Nat} (h : toString m = toString n) :
    m = n :=
  natRepr_injective h

/-- Appending on the left is cancellative for strings. -/
theorem string_append_left_cancel {a b c : String}
    (h : a ++ b = a ++ c) : b = c := by
  have hd : a.data ++ b.data = a.data ++ c.data := by
    simpa using congrArg String.data h
  have hbc : b.data = c.data := List.append_cancel_left hd
  cases b; cases c; exact congrArg String.mk hbc

/-- Appending on the right is cancellative for strings. -/
theorem string_append_right_cancel {a b c : String}
    (h : a ++ c = b ++ c) : a = b := by
  have hd : a.data ++ c.data = b.data ++ c.data := by
    simpa using congrArg String.data h
  have hab : a.data = b.data := List.append_cancel_right hd
  cases a; cases b; exact congrArg String.mk hab

/-- Two `screenshot_<t>.png` names agree only for equal timestamps. -/
theorem screenshot_filename_injective {t1 t2 : Nat}
    (h : "screenshot_" ++ toString t1 ++ ".png"
        = "screenshot_" ++ toString t2 ++ ".png") : t1 = t2 := by
  have h1 : "screenshot_" ++ toString t1 = "screenshot_" ++ toString t2 :=
    string_append_right_cancel h
  exact natToString_injective (string_append_left_cancel h1)

/-- `os.path.join` with a fixed folder is injective in the file name. -/
theorem osPathJoin_right_injective {f b c : String}
    (h : osPathJoin f b = osPathJoin f c) : b = c := by
  unfold osPathJoin at h
  by_cases h0 : f = ""
  · simpa [h0] using h
  · rw [if_neg h0, if_neg h0] at h
    by_cases h1 : f.data.getLast? = some '/'
    · rw [if_pos h1, if_pos h1] at h
      exact string_append_left_cancel h
    · rw [if_neg h1, if_neg h1] at h
      exact string_append_left_cancel h

/-- C9 counterexample: two successive left clicks with unchanged cursor
(1000, 500) and unchanged region 800×600 that fall in the same unix second
(timestamp 100) write the very same path `shots/screenshot_100.png` — the
second capture overwrites the first instead of producing a distinct file. -/
theorem same_second_captures_share_filename :
    (writtenFiles ⟨800, 600, "shots", true, true, true, true, true⟩
        .left 1000 500 100 true).map Prod.fst
      = ["shots/screenshot_100.png"] ∧
    (writtenFiles ⟨800, 600, "shots", true, true, true, true, true⟩
        .left 1000 500 100 true).map Prod.fst
      = (writtenFiles ⟨800, 600, "shots", true, true, true, true, true⟩
        .left 1000 500 100 true).map Prod.fst :=
  ⟨by decide, rfl⟩

/-- C9 amended: two successive captures with unchanged cursor position and
region size always write images of identical (configured) dimensions, and
their file names are distinct exactly when their second-resolution unix
timestamps differ; clicks within the same second reuse the same name. -/
theorem distinct_timestamp_captures_distinct (o : Overlay) (cx cy : Int)
    (t1 t2 : Nat) (ok1 ok2 : Bool) (h : t1 ≠ t2) :
    (writtenFiles o .left cx cy t1 ok1).map Prod.fst
      ≠ (writtenFiles o .left cx cy t2 ok2).map Prod.fst ∧
    (writtenFiles o .left cx cy t1 ok1).map Prod.snd
      = (writtenFiles o .left cx cy t2 ok2).map Prod.snd := by
  constructor
  · intro he
    have e1 : (writtenFiles o .left cx cy t1 ok1).map Prod.fst
        = [osPathJoin o.save_folder
            ("screenshot_" ++ toString t1 ++ ".png")] := rfl
    have e2 : (writtenFiles o .left cx cy t2 ok2).map Prod.fst
        = [osPathJoin o.save_folder
            ("screenshot_" ++ toString t2 ++ ".png")] := rfl
    rw [e1, e2] at he
    have hp : osPathJoin o.save_folder
          ("screenshot_" ++ toString t1 ++ ".png")
        = osPathJoin o.save_folder
          ("screenshot_" ++ toString t2 ++ ".png") := by
      simpa using he
    exact h (screenshot_filename_injective (osPathJoin_right_injective hp))
  · rfl

/-- C9 amended witness: timestamps 100 and 101 give distinct file names of
identical dimensions. -/
theorem distinct_timestamp_captures_distinct_witness :
    (100 : Nat) ≠ 101 ∧
    ((writtenFiles ⟨800, 600, "shots", true, true, true, true, true⟩
         .left 1000 500 100 true).map Prod.fst
       ≠ (writtenFiles ⟨800, 600, "shots", true, true, true, true, true⟩
         .left 1000 500 101 true).map Prod.fst ∧
     (writtenFiles ⟨800, 600, "shots", true, true, true, true, true⟩
         .left 1000 500 100 true).map Prod.snd
       = (writtenFiles ⟨800, 600, "shots", true, true, true, true, true⟩
         .left 1000 500 101 true).map Prod.snd) :=
  ⟨by decide,
   distinct_timestamp_captures_distinct
     ⟨800, 600, "shots", true, true, true, true, true⟩ 1000 500 100 101
     true true (by decide)⟩

end CST
